import Mathlib

/-!
Shallow embedding of `src/promiseChaining.js` (repository
4strid/promise-chaining) and proofs about its five chain functions.

External collaborators (the `request` library, the `request-promise`
library and the platform function `JSON.parse`) are modelled as fields of
an `Env` record: a deterministic response for every resource locator.
JavaScript dynamic values that the script manipulates are modelled by the
inductive type `JSValue`; exceptions and error objects by `JsError`.
Each chain function is translated into a Lean function from an `Env` and
the two string inputs to the ordered list of request locators it issues
(its trace) together with its terminal outcome: callback invoked with a
value / promise resolved (`Outcome.ok`), callback invoked with an error /
promise rejected (`Outcome.err`), or an uncaught synchronous throw inside
a callback (`Outcome.crash`).
-/

namespace PromiseChaining

/-- JavaScript values as the script observes them: results of `JSON.parse`
plus the `undefined` produced by missing-property access. -/
inductive JSValue where
  | vundefined
  | vnull
  | vbool (b : Bool)
  | vnum (n : Int)
  | vstr (s : String)
  | varr (elems : List JSValue)
  | vobj (fields : List (String × JSValue))

/-- JavaScript error values that can reach a callback, a promise rejection
or an uncaught throw in this script: a transport-level error handed over by
the request collaborator, a SyntaxError thrown by `JSON.parse` (carrying,
in this model, the offending text), a TypeError from reading a property of
`null` or `undefined`, and a plain `new Error(message)`. -/
inductive JsError where
  | transport (msg : String)
  | syntaxError (text : String)
  | typeError (msg : String)
  | error (msg : String)
deriving DecidableEq

mutual

/-- JavaScript ToString as used by string concatenation `+`: numbers print
in decimal, strings are unchanged, `null`, `undefined` and booleans print
as their keyword, arrays join their elements with commas (with `null` and
`undefined` elements printing as empty), plain objects print as
`[object Object]`. -/
def jsToString : JSValue → String
  | .vundefined => "undefined"
  | .vnull => "null"
  | .vbool true => "true"
  | .vbool false => "false"
  | .vnum n => toString n
  | .vstr s => s
  | .varr xs => String.intercalate "," (jsToStringList xs)
  | .vobj _ => "[object Object]"

/-- Elementwise ToString for array joining, see `jsToString`. -/
def jsToStringList : List JSValue → List String
  | [] => []
  | .vnull :: xs => "" :: jsToStringList xs
  | .vundefined :: xs => "" :: jsToStringList xs
  | x :: xs => jsToString x :: jsToStringList xs
end

/-- JavaScript property access `v.k`: throws a TypeError on `null` or
`undefined`, yields the field on an object (or `undefined` when the field
is absent), and yields `undefined` on every other primitive. -/
def getProp (v : JSValue) (k : String) : Except JsError JSValue :=
  match v with
  | .vundefined => .error (.typeError ("Cannot read property " ++ k ++ " of undefined"))
  | .vnull => .error (.typeError ("Cannot read property " ++ k ++ " of null"))
  | .vobj fields => .ok ((fields.lookup k).getD .vundefined)
  | _ => .ok .vundefined

/-- Outcome of one call to the callback-style `request` collaborator:
either a transport-level failure (the callback then receives a truthy
`err` and an undefined `res` and `body`) or a completed response with a
status code and a body. -/
inductive ReqOutcome where
  | failure (e : JsError)
  | response (statusCode : Nat) (body : String)
deriving DecidableEq

/-- Outcome of one call to the promise-returning `request-promise`
collaborator: the returned promise either resolves with a body string or
rejects with an error. -/
inductive RPOutcome where
  | resolve (body : String)
  | reject (e : JsError)
deriving DecidableEq

/-- Terminal outcome of one chain execution: the caller receives a value
(callback success argument / resolved promise), the caller receives an
error value (callback error argument / rejected promise), or an uncaught
synchronous throw escapes a callback and the process crashes. -/
inductive Outcome (α : Type) where
  | ok (v : α)
  | err (e : JsError)
  | crash (e : JsError)

/-- The deterministic external collaborators of one execution: the
`request` library, the `request-promise` library, and `JSON.parse`
(`none` models a parse throw). -/
structure Env where
  request : String → ReqOutcome
  reqPromise : String → RPOutcome
  jsonParse : String → Option JSValue

/-- Source line 20: `var apiURL = 'http://ctrl-alt-create.net/api/'`. -/
def apiURL : String := "http://ctrl-alt-create.net/api/"

/-- Locator of the users step: `apiURL + 'users/' + username`. -/
def usersURL (username : String) : String := apiURL ++ "users/" ++ username

/-- Locator of the blogs step: `apiURL + 'blogs/' + user.id`. -/
def blogsURL (uid : JSValue) : String := apiURL ++ "blogs/" ++ jsToString uid

/-- Locator of the blog-post step:
`apiURL + 'blogposts/' + blog.id + '/' + postTitle`. -/
def blogpostsURL (bid : JSValue) (postTitle : String) : String :=
  apiURL ++ "blogposts/" ++ jsToString bid ++ "/" ++ postTitle

/-- Locator of the comments step as built everywhere except source line
202: `apiURL + 'comments/' + post.id`. -/
def commentsURL (pid : JSValue) : String := apiURL ++ "comments/" ++ jsToString pid

/-- Locator of the comments step as built at source line 202, inside
`getCommentsHandleErrs`: `apiURL + '/comments/' + post.id` - note the
leading slash, which yields a double slash after the base locator. -/
def commentsURLHandleErrs (pid : JSValue) : String :=
  apiURL ++ "/comments/" ++ jsToString pid

/-- JSON.parse applied to a string body: the external parse either yields
a value or throws a SyntaxError. -/
def jsonParseStr (env : Env) (s : String) : Except JsError JSValue :=
  match env.jsonParse s with
  | some v => .ok v
  | none => .error (.syntaxError s)

/-- The `body` argument the `request` library passes to its callback:
`undefined` (here `none`) after a transport failure, the body string after
a completed response of any status. -/
def bodyArg : ReqOutcome → Option String
  | .failure _ => none
  | .response _ b => some b

/-- JSON.parse applied to the possibly-undefined `body` callback argument:
`JSON.parse(undefined)` coerces its argument to the string "undefined" and
throws a SyntaxError. -/
def jsonParseArg (env : Env) : Option String → Except JsError JSValue
  | some s => jsonParseStr env s
  | none => .error (.syntaxError "undefined")

/-- Source lines 28-44: the plain callback version. Each nesting level
issues one request and parses the body with an unguarded `JSON.parse`: the
`err` and `res` callback arguments are ignored, so after a transport
failure the body is `undefined` and the parse throws; a parse throw, or a
TypeError from `.id` on a parsed `null`, is an uncaught synchronous throw
(the process crashes). On the success path the final callback receives the
parsed comments body. The first component is the ordered list of request
locators issued. -/
def getComments (env : Env) (username postTitle : String) :
    List String × Outcome JSValue :=
  match jsonParseArg env (bodyArg (env.request (usersURL username))) with
  | .error e => ([usersURL username], .crash e)
  | .ok user =>
    match getProp user "id" with
    | .error e => ([usersURL username], .crash e)
    | .ok uid =>
      match jsonParseArg env (bodyArg (env.request (blogsURL uid))) with
      | .error e => ([usersURL username, blogsURL uid], .crash e)
      | .ok blog =>
        match getProp blog "id" with
        | .error e => ([usersURL username, blogsURL uid], .crash e)
        | .ok bid =>
          match jsonParseArg env
              (bodyArg (env.request (blogpostsURL bid postTitle))) with
          | .error e =>
            ([usersURL username, blogsURL uid, blogpostsURL bid postTitle],
              .crash e)
          | .ok post =>
            match getProp post "id" with
            | .error e =>
              ([usersURL username, blogsURL uid, blogpostsURL bid postTitle],
                .crash e)
            | .ok pid =>
              match jsonParseArg env
                  (bodyArg (env.request (commentsURL pid))) with
              | .error e =>
                ([usersURL username, blogsURL uid,
                  blogpostsURL bid postTitle, commentsURL pid], .crash e)
              | .ok comments =>
                ([usersURL username, blogsURL uid,
                  blogpostsURL bid postTitle, commentsURL pid], .ok comments)

/-- Source lines 180-217: the callback version with error handling. Each
nesting level checks `if (err) callback(err); else if (res.statusCode !==
200) callback(new Error('Failed request: status ' + res.statusCode))`
before parsing; the parses themselves are still unguarded, so an
undecodable body at status 200 remains an uncaught throw. The comments
locator is the one of source line 202, with its leading slash. On success
the callback receives `(null, parsed comments)`. -/
def getCommentsHandleErrs (env : Env) (username postTitle : String) :
    List String × Outcome JSValue :=
  match env.request (usersURL username) with
  | .failure e => ([usersURL username], .err e)
  | .response st body =>
    if st ≠ 200 then
      ([usersURL username],
        .err (.error ("Failed request: status " ++ toString st)))
    else
      match jsonParseStr env body with
      | .error e => ([usersURL username], .crash e)
      | .ok user =>
        match getProp user "id" with
        | .error e => ([usersURL username], .crash e)
        | .ok uid =>
          match env.request (blogsURL uid) with
          | .failure e => ([usersURL username, blogsURL uid], .err e)
          | .response st body =>
            if st ≠ 200 then
              ([usersURL username, blogsURL uid],
                .err (.error ("Failed request: status " ++ toString st)))
            else
              match jsonParseStr env body with
              | .error e => ([usersURL username, blogsURL uid], .crash e)
              | .ok blog =>
                match getProp blog "id" with
                | .error e => ([usersURL username, blogsURL uid], .crash e)
                | .ok bid =>
                  match env.request (blogpostsURL bid postTitle) with
                  | .failure e =>
                    ([usersURL username, blogsURL uid,
                      blogpostsURL bid postTitle], .err e)
                  | .response st body =>
                    if st ≠ 200 then
                      ([usersURL username, blogsURL uid,
                        blogpostsURL bid postTitle],
                        .err (.error ("Failed request: status " ++ toString st)))
                    else
                      match jsonParseStr env body with
                      | .error e =>
                        ([usersURL username, blogsURL uid,
                          blogpostsURL bid postTitle], .crash e)
                      | .ok post =>
                        match getProp post "id" with
                        | .error e =>
                          ([usersURL username, blogsURL uid,
                            blogpostsURL bid postTitle], .crash e)
                        | .ok pid =>
                          match env.request (commentsURLHandleErrs pid) with
                          | .failure e =>
                            ([usersURL username, blogsURL uid,
                              blogpostsURL bid postTitle,
                              commentsURLHandleErrs pid], .err e)
                          | .response st body =>
                            if st ≠ 200 then
                              ([usersURL username, blogsURL uid,
                                blogpostsURL bid postTitle,
                                commentsURLHandleErrs pid],
                                .err (.error
                                  ("Failed request: status " ++ toString st)))
                            else
                              match jsonParseStr env body with
                              | .error e =>
                                ([usersURL username, blogsURL uid,
                                  blogpostsURL bid postTitle,
                                  commentsURLHandleErrs pid], .crash e)
                              | .ok comments =>
                                ([usersURL username, blogsURL uid,
                                  blogpostsURL bid postTitle,
                                  commentsURLHandleErrs pid], .ok comments)

/-- Source lines 83-127: the promise version. Each `.then` callback parses
the body and returns the next `request-promise` call; a rejection from the
collaborator skips the remaining `.then` callbacks and rejects the chain,
and a throw inside a `.then` callback (SyntaxError from `JSON.parse`,
TypeError from `.id`) rejects the chain as well - promise semantics turn
it into a rejection, never a crash. The last `.then` returns the parsed
comments body, resolving the chain. -/
def getCommsPromisified (env : Env) (username postTitle : String) :
    List String × Outcome JSValue :=
  match env.reqPromise (usersURL username) with
  | .reject e => ([usersURL username], .err e)
  | .resolve body =>
    match jsonParseStr env body with
    | .error e => ([usersURL username], .err e)
    | .ok user =>
      match getProp user "id" with
      | .error e => ([usersURL username], .err e)
      | .ok uid =>
        match env.reqPromise (blogsURL uid) with
        | .reject e => ([usersURL username, blogsURL uid], .err e)
        | .resolve body =>
          match jsonParseStr env body with
          | .error e => ([usersURL username, blogsURL uid], .err e)
          | .ok blog =>
            match getProp blog "id" with
            | .error e => ([usersURL username, blogsURL uid], .err e)
            | .ok bid =>
              match env.reqPromise (blogpostsURL bid postTitle) with
              | .reject e =>
                ([usersURL username, blogsURL uid,
                  blogpostsURL bid postTitle], .err e)
              | .resolve body =>
                match jsonParseStr env body with
                | .error e =>
                  ([usersURL username, blogsURL uid,
                    blogpostsURL bid postTitle], .err e)
                | .ok post =>
                  match getProp post "id" with
                  | .error e =>
                    ([usersURL username, blogsURL uid,
                      blogpostsURL bid postTitle], .err e)
                  | .ok pid =>
                    match env.reqPromise (commentsURL pid) with
                    | .reject e =>
                      ([usersURL username, blogsURL uid,
                        blogpostsURL bid postTitle, commentsURL pid], .err e)
                    | .resolve body =>
                      match jsonParseStr env body with
                      | .error e =>
                        ([usersURL username, blogsURL uid,
                          blogpostsURL bid postTitle, commentsURL pid], .err e)
                      | .ok comments =>
                        ([usersURL username, blogsURL uid,
                          blogpostsURL bid postTitle, commentsURL pid],
                          .ok comments)

/-- Source lines 142-159: the promise version reformatted, with each
`.then` on its own line. The chain is character-for-character the one of
`getCommsPromisified`; it is translated here again, independently, so that
the equivalence of the two source functions is a theorem and not a
modelling assumption. -/
def getCommsPromisified2 (env : Env) (username postTitle : String) :
    List String × Outcome JSValue :=
  match env.reqPromise (usersURL username) with
  | .reject e => ([usersURL username], .err e)
  | .resolve body =>
    match jsonParseStr env body with
    | .error e => ([usersURL username], .err e)
    | .ok user =>
      match getProp user "id" with
      | .error e => ([usersURL username], .err e)
      | .ok uid =>
        match env.reqPromise (blogsURL uid) with
        | .reject e => ([usersURL username, blogsURL uid], .err e)
        | .resolve body =>
          match jsonParseStr env body with
          | .error e => ([usersURL username, blogsURL uid], .err e)
          | .ok blog =>
            match getProp blog "id" with
            | .error e => ([usersURL username, blogsURL uid], .err e)
            | .ok bid =>
              match env.reqPromise (blogpostsURL bid postTitle) with
              | .reject e =>
                ([usersURL username, blogsURL uid,
                  blogpostsURL bid postTitle], .err e)
              | .resolve body =>
                match jsonParseStr env body with
                | .error e =>
                  ([usersURL username, blogsURL uid,
                    blogpostsURL bid postTitle], .err e)
                | .ok post =>
                  match getProp post "id" with
                  | .error e =>
                    ([usersURL username, blogsURL uid,
                      blogpostsURL bid postTitle], .err e)
                  | .ok pid =>
                    match env.reqPromise (commentsURL pid) with
                    | .reject e =>
                      ([usersURL username, blogsURL uid,
                        blogpostsURL bid postTitle, commentsURL pid], .err e)
                    | .resolve body =>
                      match jsonParseStr env body with
                      | .error e =>
                        ([usersURL username, blogsURL uid,
                          blogpostsURL bid postTitle, commentsURL pid], .err e)
                      | .ok comments =>
                        ([usersURL username, blogsURL uid,
                          blogpostsURL bid postTitle, commentsURL pid],
                          .ok comments)

/-- Source lines 229-246: the promise version presented in the
error-handling section. The source body is again identical to
`getCommsPromisified` - no error-handling logic appears inside the chain;
the narration (lines 248-269) explains that the caller attaches a single
`.catch`. Translated independently, like `getCommsPromisified2`. -/
def getCommsPromisifiedHandleErrs (env : Env) (username postTitle : String) :
    List String × Outcome JSValue :=
  match env.reqPromise (usersURL username) with
  | .reject e => ([usersURL username], .err e)
  | .resolve body =>
    match jsonParseStr env body with
    | .error e => ([usersURL username], .err e)
    | .ok user =>
      match getProp user "id" with
      | .error e => ([usersURL username], .err e)
      | .ok uid =>
        match env.reqPromise (blogsURL uid) with
        | .reject e => ([usersURL username, blogsURL uid], .err e)
        | .resolve body =>
          match jsonParseStr env body with
          | .error e => ([usersURL username, blogsURL uid], .err e)
          | .ok blog =>
            match getProp blog "id" with
            | .error e => ([usersURL username, blogsURL uid], .err e)
            | .ok bid =>
              match env.reqPromise (blogpostsURL bid postTitle) with
              | .reject e =>
                ([usersURL username, blogsURL uid,
                  blogpostsURL bid postTitle], .err e)
              | .resolve body =>
                match jsonParseStr env body with
                | .error e =>
                  ([usersURL username, blogsURL uid,
                    blogpostsURL bid postTitle], .err e)
                | .ok post =>
                  match getProp post "id" with
                  | .error e =>
                    ([usersURL username, blogsURL uid,
                      blogpostsURL bid postTitle], .err e)
                  | .ok pid =>
                    match env.reqPromise (commentsURL pid) with
                    | .reject e =>
                      ([usersURL username, blogsURL uid,
                        blogpostsURL bid postTitle, commentsURL pid], .err e)
                    | .resolve body =>
                      match jsonParseStr env body with
                      | .error e =>
                        ([usersURL username, blogsURL uid,
                          blogpostsURL bid postTitle, commentsURL pid], .err e)
                      | .ok comments =>
                        ([usersURL username, blogsURL uid,
                          blogpostsURL bid postTitle, commentsURL pid],
                          .ok comments)

/-- The mutable global state of the script: the single `var` binding
`apiURL` (source line 20). Nothing in the file assigns to it after its
initialisation. -/
structure JsState where
  apiURL : String

/-- The chain of `getCommsPromisified2` with the mutable global `var
apiURL` threaded as explicit state: the function reads the global when
building every locator and contains no assignment to it, so it returns
the state unchanged alongside the result. Used to settle the claim that
no mutable state is carried from one invocation to the next. -/
def getCommsPromisified2St (s : JsState) (env : Env)
    (username postTitle : String) :
    JsState × (List String × Outcome JSValue) :=
  (s,
    match env.reqPromise (s.apiURL ++ "users/" ++ username) with
    | .reject e => ([s.apiURL ++ "users/" ++ username], .err e)
    | .resolve body =>
      match jsonParseStr env body with
      | .error e => ([s.apiURL ++ "users/" ++ username], .err e)
      | .ok user =>
        match getProp user "id" with
        | .error e => ([s.apiURL ++ "users/" ++ username], .err e)
        | .ok uid =>
          match env.reqPromise (s.apiURL ++ "blogs/" ++ jsToString uid) with
          | .reject e =>
            ([s.apiURL ++ "users/" ++ username,
              s.apiURL ++ "blogs/" ++ jsToString uid], .err e)
          | .resolve body =>
            match jsonParseStr env body with
            | .error e =>
              ([s.apiURL ++ "users/" ++ username,
                s.apiURL ++ "blogs/" ++ jsToString uid], .err e)
            | .ok blog =>
              match getProp blog "id" with
              | .error e =>
                ([s.apiURL ++ "users/" ++ username,
                  s.apiURL ++ "blogs/" ++ jsToString uid], .err e)
              | .ok bid =>
                match env.reqPromise
                    (s.apiURL ++ "blogposts/" ++ jsToString bid ++ "/"
                      ++ postTitle) with
                | .reject e =>
                  ([s.apiURL ++ "users/" ++ username,
                    s.apiURL ++ "blogs/" ++ jsToString uid,
                    s.apiURL ++ "blogposts/" ++ jsToString bid ++ "/"
                      ++ postTitle], .err e)
                | .resolve body =>
                  match jsonParseStr env body with
                  | .error e =>
                    ([s.apiURL ++ "users/" ++ username,
                      s.apiURL ++ "blogs/" ++ jsToString uid,
                      s.apiURL ++ "blogposts/" ++ jsToString bid ++ "/"
                        ++ postTitle], .err e)
                  | .ok post =>
                    match getProp post "id" with
                    | .error e =>
                      ([s.apiURL ++ "users/" ++ username,
                        s.apiURL ++ "blogs/" ++ jsToString uid,
                        s.apiURL ++ "blogposts/" ++ jsToString bid ++ "/"
                          ++ postTitle], .err e)
                    | .ok pid =>
                      match env.reqPromise
                          (s.apiURL ++ "comments/" ++ jsToString pid) with
                      | .reject e =>
                        ([s.apiURL ++ "users/" ++ username,
                          s.apiURL ++ "blogs/" ++ jsToString uid,
                          s.apiURL ++ "blogposts/" ++ jsToString bid ++ "/"
                            ++ postTitle,
                          s.apiURL ++ "comments/" ++ jsToString pid], .err e)
                      | .resolve body =>
                        match jsonParseStr env body with
                        | .error e =>
                          ([s.apiURL ++ "users/" ++ username,
                            s.apiURL ++ "blogs/" ++ jsToString uid,
                            s.apiURL ++ "blogposts/" ++ jsToString bid ++ "/"
                              ++ postTitle,
                            s.apiURL ++ "comments/" ++ jsToString pid], .err e)
                        | .ok comments =>
                          ([s.apiURL ++ "users/" ++ username,
                            s.apiURL ++ "blogs/" ++ jsToString uid,
                            s.apiURL ++ "blogposts/" ++ jsToString bid ++ "/"
                              ++ postTitle,
                            s.apiURL ++ "comments/" ++ jsToString pid],
                            .ok comments))

/-- The failure recorded by the error guard that opens every nesting level
of `getCommentsHandleErrs` (source lines 182-185 and its three copies): a
transport error is passed through unchanged; a completed response with a
status other than 200 becomes `new Error('Failed request: status ' +
res.statusCode)`; a 200 response is not a failure. -/
def recordedFailure : ReqOutcome → Option JsError
  | .failure e => some e
  | .response st _ =>
    if st ≠ 200 then some (.error ("Failed request: status " ++ toString st))
    else none

/-- One nesting level of `getCommentsHandleErrs` succeeds with the given
body, parsed value and id field: the request completes with status 200,
the body parses, and the `.id` access yields a value. -/
abbrev stepOk (env : Env) (url body : String) (v idv : JSValue) : Prop :=
  env.request url = .response 200 body ∧ env.jsonParse body = some v ∧
    getProp v "id" = .ok idv

/-- One nesting level of `getComments` succeeds with the given body,
parsed value and id field: the request completes (its status is ignored by
this function), the body parses, and the `.id` access yields a value. -/
abbrev cbStepOk (env : Env) (url body : String) (v idv : JSValue) : Prop :=
  (∃ st, env.request url = .response st body) ∧ env.jsonParse body = some v ∧
    getProp v "id" = .ok idv

/-- A concrete deterministic `JSON.parse` table for the demonstration
environments: the four bodies served by the demonstration server parse to
the values of the end-to-end scenario (user id 7, blog id 42, post id 99,
one comment); every other string fails to parse. -/
def demoParse (s : String) : Option JSValue :=
  if s = "\x7b\"id\":7\x7d" then some (.vobj [("id", .vnum 7)])
  else if s = "\x7b\"id\":42\x7d" then some (.vobj [("id", .vnum 42)])
  else if s = "\x7b\"id\":99\x7d" then some (.vobj [("id", .vnum 99)])
  else if s = "[\x7b\"text\":\"nice\"\x7d]" then
    some (.varr [.vobj [("text", .vstr "nice")]])
  else none

/-- The all-success demonstration server: it answers the four locators of
the end-to-end scenario for username "peter" and title "Promise-Chaining"
with status 200, and fails at transport level on every other locator. -/
def demoRequest (url : String) : ReqOutcome :=
  if url = usersURL "peter" then .response 200 "\x7b\"id\":7\x7d"
  else if url = blogsURL (.vnum 7) then .response 200 "\x7b\"id\":42\x7d"
  else if url = blogpostsURL (.vnum 42) "Promise-Chaining" then
    .response 200 "\x7b\"id\":99\x7d"
  else if url = commentsURL (.vnum 99) then
    .response 200 "[\x7b\"text\":\"nice\"\x7d]"
  else .failure (.transport "ECONNREFUSED")

/-- Package a callback-style server into a full environment: the
promise-returning collaborator resolves with the body of any completed
response and rejects with the transport error otherwise, and `JSON.parse`
is the demonstration table. -/
def mkEnv (req : String → ReqOutcome) : Env :=
  { request := req
    reqPromise := fun url =>
      match req url with
      | .failure e => .reject e
      | .response _ b => .resolve b
    jsonParse := demoParse }

/-- The all-success demonstration environment. -/
def demoEnv : Env := mkEnv demoRequest

/-- The parsed comments body of the demonstration scenario. -/
def demoComments : JSValue := .varr [.vobj [("text", .vstr "nice")]]

/-- Demonstration environment failing at the users step with a transport
error. -/
def envFail0 : Env :=
  mkEnv fun url =>
    if url = usersURL "peter" then .failure (.transport "socket hang up")
    else demoRequest url

/-- Demonstration environment answering the users step with status 404. -/
def env404at0 : Env :=
  mkEnv fun url =>
    if url = usersURL "peter" then .response 404 "Not Found"
    else demoRequest url

/-- Demonstration environment answering the blogs step with status 500. -/
def envFail1 : Env :=
  mkEnv fun url =>
    if url = blogsURL (.vnum 7) then .response 500 "Internal Server Error"
    else demoRequest url

/-- Demonstration environment answering the blog-post step for title
"Not-A-Real-Post" with status 404; the users and blogs steps succeed as in
the all-success scenario. -/
def envFail2 : Env :=
  mkEnv fun url =>
    if url = blogpostsURL (.vnum 42) "Not-A-Real-Post" then
      .response 404 "Not Found"
    else demoRequest url

/-- Demonstration environment answering the comments step (at the locator
`getCommentsHandleErrs` actually builds, with its double slash) with
status 500; the earlier steps succeed as in the all-success scenario. -/
def envFail3 : Env :=
  mkEnv fun url =>
    if url = commentsURLHandleErrs (.vnum 99) then
      .response 500 "Internal Server Error"
    else demoRequest url

/-- Demonstration environment answering the users step with status 200 and
a body that does not parse as JSON. -/
def badBodyEnv : Env :=
  mkEnv fun url =>
    if url = usersURL "peter" then .response 200 "<html>oops</html>"
    else demoRequest url

theorem apiURL_left_cancel {x y : String} (h : apiURL ++ x = apiURL ++ y) :
    x = y := by
  have h2 : apiURL.data ++ x.data = apiURL.data ++ y.data :=
    congrArg String.data h
  exact congrArg String.mk (List.append_cancel_left h2)

theorem commentsHE_ne_usersURL (p : JSValue) (username : String) :
    commentsURLHandleErrs p ≠ usersURL username := by
  intro h
  have h1 : apiURL ++ ("/comments/" ++ jsToString p) =
      apiURL ++ ("users/" ++ username) := by
    simpa [commentsURLHandleErrs, usersURL, String.append_assoc] using h
  have h2 := apiURL_left_cancel h1
  have hh : (some '/' : Option Char) = some 'u' :=
    congrArg (fun s => s.data.head?) h2
  exact absurd hh (by decide)

theorem commentsHE_ne_blogsURL (p uid : JSValue) :
    commentsURLHandleErrs p ≠ blogsURL uid := by
  intro h
  have h1 : apiURL ++ ("/comments/" ++ jsToString p) =
      apiURL ++ ("blogs/" ++ jsToString uid) := by
    simpa [commentsURLHandleErrs, blogsURL, String.append_assoc] using h
  have h2 := apiURL_left_cancel h1
  have hh : (some '/' : Option Char) = some 'b' :=
    congrArg (fun s => s.data.head?) h2
  exact absurd hh (by decide)

theorem commentsHE_ne_blogpostsURL (p bid : JSValue) (postTitle : String) :
    commentsURLHandleErrs p ≠ blogpostsURL bid postTitle := by
  intro h
  have h1 : apiURL ++ ("/comments/" ++ jsToString p) =
      apiURL ++ ("blogposts/" ++ (jsToString bid ++ ("/" ++ postTitle))) := by
    simpa [commentsURLHandleErrs, blogpostsURL, String.append_assoc] using h
  have h2 := apiURL_left_cancel h1
  have hh : (some '/' : Option Char) = some 'b' :=
    congrArg (fun s => s.data.head?) h2
  exact absurd hh (by decide)

theorem recordedFailure_cases {o : ReqOutcome} {e : JsError}
    (h : recordedFailure o = some e) :
    o = .failure e ∨
      ∃ st b, o = .response st b ∧ st ≠ 200 ∧
        e = .error ("Failed request: status " ++ toString st) := by
  cases o with
  | failure e2 =>
    left
    simp only [recordedFailure, Option.some.injEq] at h
    rw [h]
  | response st b =>
    right
    simp only [recordedFailure] at h
    split at h
    · exact ⟨st, b, rfl, by assumption, (Option.some.inj h).symm⟩
    · exact absurd h (by simp)

/-- C1: for every chain in which all steps succeed (every request
completes - with status 200 irrelevant to `getComments`, which ignores it -
and for the promise variant every request resolves), the chain resolves to
success with the parsed comments body, the value the last step returns,
and the four steps are invoked exactly once, in order, each request built
from the immediately-preceding step output (or the initial input for the
first step): the trace is exactly the four locators, in order. -/
theorem c1_all_success (env : Env) (username postTitle : String)
    (b0 b1 b2 b3 : String) (user blog post comments uid bid pid : JSValue)
    (h0 : cbStepOk env (usersURL username) b0 user uid)
    (h1 : cbStepOk env (blogsURL uid) b1 blog bid)
    (h2 : cbStepOk env (blogpostsURL bid postTitle) b2 post pid)
    (h3 : ∃ st, env.request (commentsURL pid) = .response st b3)
    (hp3 : env.jsonParse b3 = some comments)
    (q0 : env.reqPromise (usersURL username) = .resolve b0)
    (q1 : env.reqPromise (blogsURL uid) = .resolve b1)
    (q2 : env.reqPromise (blogpostsURL bid postTitle) = .resolve b2)
    (q3 : env.reqPromise (commentsURL pid) = .resolve b3) :
    getComments env username postTitle =
      ([usersURL username, blogsURL uid, blogpostsURL bid postTitle,
        commentsURL pid], .ok comments) ∧
    getCommsPromisified2 env username postTitle =
      ([usersURL username, blogsURL uid, blogpostsURL bid postTitle,
        commentsURL pid], .ok comments) := by
  obtain ⟨⟨s0, r0⟩, p0, i0⟩ := h0
  obtain ⟨⟨s1, r1⟩, p1, i1⟩ := h1
  obtain ⟨⟨s2, r2⟩, p2, i2⟩ := h2
  obtain ⟨s3, r3⟩ := h3
  constructor
  · simp [getComments, jsonParseArg, jsonParseStr, bodyArg,
      r0, r1, r2, r3, p0, p1, p2, hp3, i0, i1, i2]
  · simp [getCommsPromisified2, jsonParseStr,
      q0, q1, q2, q3, p0, p1, p2, hp3, i0, i1, i2]

/-- Witness for C1: the end-to-end scenario with username "peter" and
title "Promise-Chaining" against the all-success demonstration server. -/
theorem c1_all_success_witness :
    getComments demoEnv "peter" "Promise-Chaining" =
      ([usersURL "peter", blogsURL (.vnum 7),
        blogpostsURL (.vnum 42) "Promise-Chaining", commentsURL (.vnum 99)],
        .ok demoComments) ∧
    getCommsPromisified2 demoEnv "peter" "Promise-Chaining" =
      ([usersURL "peter", blogsURL (.vnum 7),
        blogpostsURL (.vnum 42) "Promise-Chaining", commentsURL (.vnum 99)],
        .ok demoComments) :=
  c1_all_success demoEnv "peter" "Promise-Chaining"
    "\x7b\"id\":7\x7d" "\x7b\"id\":42\x7d" "\x7b\"id\":99\x7d" "[\x7b\"text\":\"nice\"\x7d]"
    (.vobj [("id", .vnum 7)]) (.vobj [("id", .vnum 42)])
    (.vobj [("id", .vnum 99)]) demoComments
    (.vnum 7) (.vnum 42) (.vnum 99)
    ⟨⟨200, rfl⟩, rfl, rfl⟩ ⟨⟨200, rfl⟩, rfl, rfl⟩ ⟨⟨200, rfl⟩, rfl, rfl⟩
    ⟨200, rfl⟩ rfl rfl rfl rfl rfl

/-- C8: invoking the chain twice with the same inputs and the same
deterministic collaborators yields identical results, and no mutable state
is carried between the executions: with the one global `var` of the script
threaded as explicit state, the state comes back unchanged, the second run
returns exactly what the first returned, and at the initial value of the
global the run agrees with the main embedding of `getCommsPromisified2`. -/
theorem c8_no_hidden_state (s : JsState) (env : Env)
    (username postTitle : String) :
    (getCommsPromisified2St s env username postTitle).1 = s ∧
    (getCommsPromisified2St (getCommsPromisified2St s env username postTitle).1
        env username postTitle).2 =
      (getCommsPromisified2St s env username postTitle).2 ∧
    (getCommsPromisified2St ⟨apiURL⟩ env username postTitle).2 =
      getCommsPromisified2 env username postTitle :=
  ⟨rfl, rfl, rfl⟩

/-- C9: the three promise-based variants are extensionally equal - for
every environment and every pair of inputs they issue the same locator
trace and produce the same outcome - and the error-handling promise
variant contains no error-handling logic inside the chain: a rejection at
the first step surfaces directly as the rejection the caller sees. -/
theorem c9_promise_variants_equal (env : Env) (username postTitle : String) :
    getCommsPromisified env username postTitle =
      getCommsPromisified2 env username postTitle ∧
    getCommsPromisified2 env username postTitle =
      getCommsPromisifiedHandleErrs env username postTitle ∧
    (∀ e, env.reqPromise (usersURL username) = .reject e →
      getCommsPromisifiedHandleErrs env username postTitle =
        ([usersURL username], .err e)) := by
  refine ⟨rfl, rfl, ?_⟩
  intro e h
  simp [getCommsPromisifiedHandleErrs, h]

/-- Witness for C9: the equivalence at the all-success demonstration
environment, and the rejection pass-through at the environment whose users
request fails at transport level. -/
theorem c9_promise_variants_equal_witness :
    getCommsPromisified demoEnv "peter" "Promise-Chaining" =
      getCommsPromisified2 demoEnv "peter" "Promise-Chaining" ∧
    getCommsPromisifiedHandleErrs envFail0 "peter" "Promise-Chaining" =
      ([usersURL "peter"], .err (.transport "socket hang up")) :=
  ⟨(c9_promise_variants_equal demoEnv "peter" "Promise-Chaining").1,
   (c9_promise_variants_equal envFail0 "peter" "Promise-Chaining").2.2
     (.transport "socket hang up") rfl⟩

/-- C2: in `getCommentsHandleErrs`, whenever some step is the first to
fail (transport error or rejected status), the chain stops there: the
trace is exactly the locators of steps 0..i, no later request is issued,
and the single delivered outcome is the recorded failure of step i. One
conjunct per possible failing index. -/
theorem c2_short_circuit (env : Env) (username postTitle : String) :
    (∀ e, recordedFailure (env.request (usersURL username)) = some e →
      getCommentsHandleErrs env username postTitle =
        ([usersURL username], .err e)) ∧
    (∀ b0 user uid e, stepOk env (usersURL username) b0 user uid →
      recordedFailure (env.request (blogsURL uid)) = some e →
      getCommentsHandleErrs env username postTitle =
        ([usersURL username, blogsURL uid], .err e)) ∧
    (∀ b0 user uid b1 blog bid e,
      stepOk env (usersURL username) b0 user uid →
      stepOk env (blogsURL uid) b1 blog bid →
      recordedFailure (env.request (blogpostsURL bid postTitle)) = some e →
      getCommentsHandleErrs env username postTitle =
        ([usersURL username, blogsURL uid, blogpostsURL bid postTitle],
          .err e)) ∧
    (∀ b0 user uid b1 blog bid b2 post pid e,
      stepOk env (usersURL username) b0 user uid →
      stepOk env (blogsURL uid) b1 blog bid →
      stepOk env (blogpostsURL bid postTitle) b2 post pid →
      recordedFailure (env.request (commentsURLHandleErrs pid)) = some e →
      getCommentsHandleErrs env username postTitle =
        ([usersURL username, blogsURL uid, blogpostsURL bid postTitle,
          commentsURLHandleErrs pid], .err e)) := by
  refine ⟨?_, ?_, ?_, ?_⟩
  · intro e h
    rcases recordedFailure_cases h with h1 | ⟨st, b, h1, hne, rfl⟩
    · simp [getCommentsHandleErrs, h1]
    · simp [getCommentsHandleErrs, h1, hne]
  · rintro b0 user uid e ⟨r0, p0, i0⟩ h
    rcases recordedFailure_cases h with h1 | ⟨st, b, h1, hne, rfl⟩
    · simp [getCommentsHandleErrs, jsonParseStr, r0, p0, i0, h1]
    · simp [getCommentsHandleErrs, jsonParseStr, r0, p0, i0, h1, hne]
  · rintro b0 user uid b1 blog bid e ⟨r0, p0, i0⟩ ⟨r1, p1, i1⟩ h
    rcases recordedFailure_cases h with h1 | ⟨st, b, h1, hne, rfl⟩
    · simp [getCommentsHandleErrs, jsonParseStr, r0, p0, i0, r1, p1, i1, h1]
    · simp [getCommentsHandleErrs, jsonParseStr, r0, p0, i0, r1, p1, i1,
        h1, hne]
  · rintro b0 user uid b1 blog bid b2 post pid e
      ⟨r0, p0, i0⟩ ⟨r1, p1, i1⟩ ⟨r2, p2, i2⟩ h
    rcases recordedFailure_cases h with h1 | ⟨st, b, h1, hne, rfl⟩
    · simp [getCommentsHandleErrs, jsonParseStr, r0, p0, i0, r1, p1, i1,
        r2, p2, i2, h1]
    · simp [getCommentsHandleErrs, jsonParseStr, r0, p0, i0, r1, p1, i1,
        r2, p2, i2, h1, hne]

/-- Witness for C2: one run per failing index - a transport failure at
the users step, a 500 at the blogs step, a 404 at the blog-post step, and
a 500 at the comments step. -/
theorem c2_short_circuit_witness :
    getCommentsHandleErrs envFail0 "peter" "Promise-Chaining" =
      ([usersURL "peter"], .err (.transport "socket hang up")) ∧
    getCommentsHandleErrs envFail1 "peter" "Promise-Chaining" =
      ([usersURL "peter", blogsURL (.vnum 7)],
        .err (.error "Failed request: status 500")) ∧
    getCommentsHandleErrs envFail2 "peter" "Not-A-Real-Post" =
      ([usersURL "peter", blogsURL (.vnum 7),
        blogpostsURL (.vnum 42) "Not-A-Real-Post"],
        .err (.error "Failed request: status 404")) ∧
    getCommentsHandleErrs envFail3 "peter" "Promise-Chaining" =
      ([usersURL "peter", blogsURL (.vnum 7),
        blogpostsURL (.vnum 42) "Promise-Chaining",
        commentsURLHandleErrs (.vnum 99)],
        .err (.error "Failed request: status 500")) :=
  ⟨(c2_short_circuit envFail0 "peter" "Promise-Chaining").1
      (.transport "socket hang up") rfl,
   (c2_short_circuit envFail1 "peter" "Promise-Chaining").2.1
      "\x7b\"id\":7\x7d" (.vobj [("id", .vnum 7)]) (.vnum 7)
      (.error "Failed request: status 500") ⟨rfl, rfl, rfl⟩ rfl,
   (c2_short_circuit envFail2 "peter" "Not-A-Real-Post").2.2.1
      "\x7b\"id\":7\x7d" (.vobj [("id", .vnum 7)]) (.vnum 7)
      "\x7b\"id\":42\x7d" (.vobj [("id", .vnum 42)]) (.vnum 42)
      (.error "Failed request: status 404") ⟨rfl, rfl, rfl⟩ ⟨rfl, rfl, rfl⟩
      rfl,
   (c2_short_circuit envFail3 "peter" "Promise-Chaining").2.2.2
      "\x7b\"id\":7\x7d" (.vobj [("id", .vnum 7)]) (.vnum 7)
      "\x7b\"id\":42\x7d" (.vobj [("id", .vnum 42)]) (.vnum 42)
      "\x7b\"id\":99\x7d" (.vobj [("id", .vnum 99)]) (.vnum 99)
      (.error "Failed request: status 500") ⟨rfl, rfl, rfl⟩ ⟨rfl, rfl, rfl⟩
      ⟨rfl, rfl, rfl⟩ rfl⟩

/-- C3: the status-code boundary of `getCommentsHandleErrs`. A completed
users response with any status other than 200 yields, for every body, the
failure `new Error('Failed request: status ' + code)` carrying the
observed code, and halts the chain (the trace is the users locator alone);
a 200 response is treated as success: the chain goes on to issue the blogs
request. -/
theorem c3_status_boundary (env : Env) (username postTitle : String)
    (st : Nat) (b : String)
    (h : env.request (usersURL username) = .response st b) :
    (st ≠ 200 → getCommentsHandleErrs env username postTitle =
      ([usersURL username],
        .err (.error ("Failed request: status " ++ toString st)))) ∧
    (∀ user uid, st = 200 → env.jsonParse b = some user →
      getProp user "id" = .ok uid →
      ∃ rest, (getCommentsHandleErrs env username postTitle).1 =
        usersURL username :: blogsURL uid :: rest) := by
  constructor
  · intro hne
    simp [getCommentsHandleErrs, h, hne]
  · rintro user uid rfl hp hid
    simp only [getCommentsHandleErrs, h, jsonParseStr, hp, hid]
    norm_num
    repeat' first
      | exact ⟨_, rfl⟩
      | split

/-- Witness for C3: a 404 at the users step halts the chain with the
status failure, and a 200 lets it proceed to the blogs request. -/
theorem c3_status_boundary_witness :
    getCommentsHandleErrs env404at0 "peter" "Promise-Chaining" =
      ([usersURL "peter"], .err (.error "Failed request: status 404")) ∧
    ∃ rest, (getCommentsHandleErrs demoEnv "peter" "Promise-Chaining").1 =
      usersURL "peter" :: blogsURL (.vnum 7) :: rest :=
  ⟨(c3_status_boundary env404at0 "peter" "Promise-Chaining" 404 "Not Found"
      rfl).1 (by decide),
   (c3_status_boundary demoEnv "peter" "Promise-Chaining" 200 "\x7b\"id\":7\x7d"
      rfl).2 (.vobj [("id", .vnum 7)]) (.vnum 7) rfl rfl rfl⟩

/-- C4 counterexample: a users response with status 200 whose body does
not decode makes `getCommentsHandleErrs` crash with an uncaught
SyntaxError - not a failure value of any kind - refuting the claim that
an undecodable 200 body always yields a ParseError failure value. -/
theorem c4_counterexample :
    getCommentsHandleErrs badBodyEnv "peter" "Promise-Chaining" =
      ([usersURL "peter"], .crash (.syntaxError "<html>oops</html>")) := rfl

/-- C4 as amended: in the promise-based variants an undecodable response
body yields a rejected promise carrying the SyntaxError - a failure value
delivered to the caller, not a crash and not a success with a malformed
value - and the chain halts; in the callback variant with error handling
the same 200 response with an undecodable body is an uncaught synchronous
throw (a crash), because the parse is unguarded. -/
theorem c4_parse_boundary (env : Env) (username postTitle b : String)
    (hr : env.reqPromise (usersURL username) = .resolve b)
    (hp : env.jsonParse b = none) :
    getCommsPromisifiedHandleErrs env username postTitle =
      ([usersURL username], .err (.syntaxError b)) ∧
    (∀ st, env.request (usersURL username) = .response st b → st = 200 →
      getCommentsHandleErrs env username postTitle =
        ([usersURL username], .crash (.syntaxError b))) := by
  constructor
  · simp [getCommsPromisifiedHandleErrs, jsonParseStr, hr, hp]
  · rintro st h rfl
    simp [getCommentsHandleErrs, jsonParseStr, h, hp]

/-- Witness for the amended C4: the demonstration server that answers the
users step with status 200 and the body "<html>oops</html>", which does
not parse. -/
theorem c4_parse_boundary_witness :
    getCommsPromisifiedHandleErrs badBodyEnv "peter" "Promise-Chaining" =
      ([usersURL "peter"], .err (.syntaxError "<html>oops</html>")) ∧
    getCommentsHandleErrs badBodyEnv "peter" "Promise-Chaining" =
      ([usersURL "peter"], .crash (.syntaxError "<html>oops</html>")) :=
  ⟨(c4_parse_boundary badBodyEnv "peter" "Promise-Chaining"
      "<html>oops</html>" rfl rfl).1,
   (c4_parse_boundary badBodyEnv "peter" "Promise-Chaining"
      "<html>oops</html>" rfl rfl).2 200 rfl rfl⟩

/-- C5 counterexample: a 404 at the users step (index 0) and a 404 at the
blog-post step (index 2) deliver the very same failure value, so the
failure delivered by `getCommentsHandleErrs` cannot carry the index of the
failing step - refuting the claim that the failure carries that index. -/
theorem c5_counterexample :
    (getCommentsHandleErrs env404at0 "peter" "Not-A-Real-Post").2 =
      (getCommentsHandleErrs envFail2 "peter" "Not-A-Real-Post").2 ∧
    (getCommentsHandleErrs env404at0 "peter" "Not-A-Real-Post").1.length
      = 1 ∧
    (getCommentsHandleErrs envFail2 "peter" "Not-A-Real-Post").1.length
      = 3 :=
  ⟨rfl, rfl, rfl⟩

/-- C5 as amended: the failure of the first failing step is captured
exactly once and delivered to the caller unchanged - a transport error is
passed through as-is, a rejected status as the Error recording that
status - no later step is invoked or masks it (a first failure at the
blog-post step fixes the delivered outcome with no reference to the
comments step, and two environments agreeing on a failing users request
produce identical results whatever else they do); the failure does not
carry the failing step index. -/
theorem c5_cause_preserved (env : Env) (username postTitle : String) :
    (∀ e, env.request (usersURL username) = .failure e →
      getCommentsHandleErrs env username postTitle =
        ([usersURL username], .err e)) ∧
    (∀ st b, env.request (usersURL username) = .response st b → st ≠ 200 →
      getCommentsHandleErrs env username postTitle =
        ([usersURL username],
          .err (.error ("Failed request: status " ++ toString st)))) ∧
    (∀ b0 user uid b1 blog bid e,
      stepOk env (usersURL username) b0 user uid →
      stepOk env (blogsURL uid) b1 blog bid →
      recordedFailure (env.request (blogpostsURL bid postTitle)) = some e →
      (getCommentsHandleErrs env username postTitle).2 = .err e) ∧
    (∀ env2 : Env, ∀ e, env.request (usersURL username) = .failure e →
      env2.request (usersURL username) = .failure e →
      getCommentsHandleErrs env username postTitle =
        getCommentsHandleErrs env2 username postTitle) := by
  refine ⟨?_, ?_, ?_, ?_⟩
  · intro e h
    simp [getCommentsHandleErrs, h]
  · intro st b h hne
    simp [getCommentsHandleErrs, h, hne]
  · rintro b0 user uid b1 blog bid e ⟨r0, p0, i0⟩ ⟨r1, p1, i1⟩ h
    rcases recordedFailure_cases h with h1 | ⟨st, b, h1, hne, rfl⟩
    · simp [getCommentsHandleErrs, jsonParseStr, r0, p0, i0, r1, p1, i1, h1]
    · simp [getCommentsHandleErrs, jsonParseStr, r0, p0, i0, r1, p1, i1,
        h1, hne]
  · intro env2 e h h2
    simp [getCommentsHandleErrs, h, h2]

/-- Witness for the amended C5: a transport failure at the users step, a
404 at the users step, a 404 at the blog-post step, and the two-run
agreement at the transport-failing environment. -/
theorem c5_cause_preserved_witness :
    getCommentsHandleErrs envFail0 "peter" "Promise-Chaining" =
      ([usersURL "peter"], .err (.transport "socket hang up")) ∧
    getCommentsHandleErrs env404at0 "peter" "Promise-Chaining" =
      ([usersURL "peter"], .err (.error "Failed request: status 404")) ∧
    (getCommentsHandleErrs envFail2 "peter" "Not-A-Real-Post").2 =
      .err (.error "Failed request: status 404") ∧
    getCommentsHandleErrs envFail0 "peter" "Promise-Chaining" =
      getCommentsHandleErrs envFail0 "peter" "Promise-Chaining" :=
  ⟨(c5_cause_preserved envFail0 "peter" "Promise-Chaining").1
      (.transport "socket hang up") rfl,
   (c5_cause_preserved env404at0 "peter" "Promise-Chaining").2.1
      404 "Not Found" rfl (by decide),
   (c5_cause_preserved envFail2 "peter" "Not-A-Real-Post").2.2.1
      "\x7b\"id\":7\x7d" (.vobj [("id", .vnum 7)]) (.vnum 7)
      "\x7b\"id\":42\x7d" (.vobj [("id", .vnum 42)]) (.vnum 42)
      (.error "Failed request: status 404") ⟨rfl, rfl, rfl⟩ ⟨rfl, rfl, rfl⟩
      rfl,
   (c5_cause_preserved envFail0 "peter" "Promise-Chaining").2.2.2
      envFail0 (.transport "socket hang up") rfl rfl⟩

/-- C6 counterexample: a transport failure at the users step makes
`getComments` crash - the ignored error leaves `body` undefined and the
unguarded `JSON.parse(undefined)` throws - refuting the claim that every
chain operation always turns a collaborator failure into a value delivered
to the caller. -/
theorem c6_counterexample :
    getComments envFail0 "peter" "Promise-Chaining" =
      ([usersURL "peter"], .crash (.syntaxError "undefined")) := rfl

/-- C6 as amended: the promise-based variants never crash - for every
environment the outcome is a resolved value or a rejected error, so every
failure reaches the caller as a value - while the plain callback variant
`getComments` crashes with an uncaught SyntaxError whenever its first
request fails at transport level. -/
theorem c6_failure_as_value (env : Env) (username postTitle : String) :
    ((∃ v, (getCommsPromisified env username postTitle).2 = .ok v) ∨
      (∃ e, (getCommsPromisified env username postTitle).2 = .err e)) ∧
    (∀ e, env.request (usersURL username) = .failure e →
      getComments env username postTitle =
        ([usersURL username], .crash (.syntaxError "undefined"))) := by
  constructor
  · unfold getCommsPromisified
    repeat' first
      | exact .inl ⟨_, rfl⟩
      | exact .inr ⟨_, rfl⟩
      | split
  · intro e h
    simp [getComments, jsonParseArg, bodyArg, h]

/-- Witness for the amended C6 at the transport-failing environment. -/
theorem c6_failure_as_value_witness :
    ((∃ v, (getCommsPromisified envFail0 "peter" "Promise-Chaining").2 =
        .ok v) ∨
      (∃ e, (getCommsPromisified envFail0 "peter" "Promise-Chaining").2 =
        .err e)) ∧
    getComments envFail0 "peter" "Promise-Chaining" =
      ([usersURL "peter"], .crash (.syntaxError "undefined")) :=
  ⟨(c6_failure_as_value envFail0 "peter" "Promise-Chaining").1,
   (c6_failure_as_value envFail0 "peter" "Promise-Chaining").2
     (.transport "socket hang up") rfl⟩

/-- C7 counterexample: in the "Not-A-Real-Post" scenario the delivered
failure is the plain `Error('Failed request: status 404')`, and a run in
which the users step (index 0) returns 404 delivers the identical value -
so the resolved failure carries no stepIndex field, refuting the claimed
claimed failure shape with kind, stepIndex 2 and statusCode fields. -/
theorem c7_counterexample :
    getCommentsHandleErrs envFail2 "peter" "Not-A-Real-Post" =
      ([usersURL "peter", blogsURL (.vnum 7),
        blogpostsURL (.vnum 42) "Not-A-Real-Post"],
        .err (.error "Failed request: status 404")) ∧
    getCommentsHandleErrs env404at0 "peter" "Not-A-Real-Post" =
      ([usersURL "peter"], .err (.error "Failed request: status 404")) ∧
    (getCommentsHandleErrs envFail2 "peter" "Not-A-Real-Post").2 =
      (getCommentsHandleErrs env404at0 "peter" "Not-A-Real-Post").2 :=
  ⟨rfl, rfl, rfl⟩

/-- C7 as amended: when the users and blogs steps succeed and the
blog-post request for title "Not-A-Real-Post" returns status 404, the
chain calls back with the failure `Error('Failed request: status 404')`
after issuing exactly the users, blogs and blog-post requests; the
comments-step request is never issued. The failure records the status in
its message but carries no step index. -/
theorem c7_not_a_real_post (env : Env) (b0 : String) (user uid : JSValue)
    (b1 : String) (blog bid : JSValue) (b2 : String)
    (h0 : stepOk env (usersURL "peter") b0 user uid)
    (h1 : stepOk env (blogsURL uid) b1 blog bid)
    (h2 : env.request (blogpostsURL bid "Not-A-Real-Post") =
      .response 404 b2) :
    getCommentsHandleErrs env "peter" "Not-A-Real-Post" =
      ([usersURL "peter", blogsURL uid, blogpostsURL bid "Not-A-Real-Post"],
        .err (.error "Failed request: status 404")) ∧
    ∀ p : JSValue, commentsURLHandleErrs p ∉
      (getCommentsHandleErrs env "peter" "Not-A-Real-Post").1 := by
  obtain ⟨r0, p0, i0⟩ := h0
  obtain ⟨r1, p1, i1⟩ := h1
  have hmsg : ("Failed request: status " ++ toString (404 : Nat)) =
      "Failed request: status 404" := rfl
  have hmain : getCommentsHandleErrs env "peter" "Not-A-Real-Post" =
      ([usersURL "peter", blogsURL uid, blogpostsURL bid "Not-A-Real-Post"],
        .err (.error "Failed request: status 404")) := by
    simp [getCommentsHandleErrs, jsonParseStr, r0, p0, i0, r1, p1, i1, h2,
      hmsg]
  refine ⟨hmain, ?_⟩
  intro p hmem
  rw [hmain] at hmem
  simp only [List.mem_cons, List.not_mem_nil, or_false] at hmem
  rcases hmem with h | h | h
  · exact commentsHE_ne_usersURL p "peter" h
  · exact commentsHE_ne_blogsURL p uid h
  · exact commentsHE_ne_blogpostsURL p bid "Not-A-Real-Post" h

/-- Witness for the amended C7: the demonstration environment whose
blog-post request for "Not-A-Real-Post" returns 404. -/
theorem c7_not_a_real_post_witness :
    getCommentsHandleErrs envFail2 "peter" "Not-A-Real-Post" =
      ([usersURL "peter", blogsURL (.vnum 7),
        blogpostsURL (.vnum 42) "Not-A-Real-Post"],
        .err (.error "Failed request: status 404")) ∧
    ∀ p : JSValue, commentsURLHandleErrs p ∉
      (getCommentsHandleErrs envFail2 "peter" "Not-A-Real-Post").1 :=
  c7_not_a_real_post envFail2 "\x7b\"id\":7\x7d" (.vobj [("id", .vnum 7)])
    (.vnum 7) "\x7b\"id\":42\x7d" (.vobj [("id", .vnum 42)]) (.vnum 42)
    "Not Found" ⟨rfl, rfl, rfl⟩ ⟨rfl, rfl, rfl⟩ rfl

/-- C10: on the all-success run, `getComments` and `getCommentsHandleErrs`
agree on the first three locators but not on the fourth: source line 202
builds the comments locator with a leading slash (`api//comments/99`)
while `getComments` (line 38) builds `api/comments/99`, so the two
variants do not issue the same sequence of four locators. -/
theorem c10_locator_mismatch :
    (getComments demoEnv "peter" "Promise-Chaining").1 =
      [usersURL "peter", blogsURL (.vnum 7),
        blogpostsURL (.vnum 42) "Promise-Chaining", commentsURL (.vnum 99)] ∧
    (getCommentsHandleErrs demoEnv "peter" "Promise-Chaining").1 =
      [usersURL "peter", blogsURL (.vnum 7),
        blogpostsURL (.vnum 42) "Promise-Chaining",
        commentsURLHandleErrs (.vnum 99)] ∧
    commentsURL (.vnum 99) ≠ commentsURLHandleErrs (.vnum 99) ∧
    (getComments demoEnv "peter" "Promise-Chaining").1.take 3 =
      (getCommentsHandleErrs demoEnv "peter" "Promise-Chaining").1.take 3 :=
  ⟨rfl, rfl, by decide, rfl⟩

end PromiseChaining
